import Mathlib

/-!
Verification of the SoundPuff backend authentication and identity-linking
core (the Identity Bridge and Request Authenticator).

The Python sources embedded here are `app/api/v1/endpoints/auth.py`
(endpoints `signup`, `login`, `refresh_token`, `request_password_reset`,
`confirm_password_reset`, `logout`) and `app/core/deps.py`
(`get_current_user`), together with the `User` model of
`app/models/user.py` restricted to the fields the identity core touches.

The Supabase identity provider is an external collaborator; following the
design notes it is modelled as a programmable behaviour record
(`SupabaseAuth`) whose fields give the outcome of each provider method a
single request can invoke: either a returned value or a raised Python
exception carrying its `str(e)` text.  The relational store is modelled as
an explicit session state (`DB`) with committed and pending rows, so that
`commit` / `rollback` semantics are visible.  FastAPI `HTTPException`
raising and Python `try/except` clause order are modelled explicitly with
`Except`; the crucial point preserved from Python is that `HTTPException`
is a subclass of `Exception`, so a bare `except Exception` clause catches
it unless an earlier `except HTTPException: raise` clause re-raises it.
-/

namespace SoundPuff

/-- `str(e)` text of a raised Python exception, as seen by handlers that
interpolate it into response detail strings. -/
inductive PyExn where
  | exn (msg : String)
deriving Repr, DecidableEq

instance {ε α : Type} [DecidableEq ε] [DecidableEq α] :
    DecidableEq (Except ε α) := fun x y =>
  match x, y with
  | .error a, .error b =>
      if h : a = b then .isTrue (h ▸ rfl)
      else .isFalse (fun he => h (by cases he; rfl))
  | .error _, .ok _ => .isFalse (fun he => Except.noConfusion he)
  | .ok _, .error _ => .isFalse (fun he => Except.noConfusion he)
  | .ok a, .ok b =>
      if h : a = b then .isTrue (h ▸ rfl)
      else .isFalse (fun he => h (by cases he; rfl))

/-- A Supabase session object: `access_token`, `refresh_token`,
`expires_in`.  Fields are `Option` because the Python attributes may be
`None`; string truthiness (`not s`) also treats `""` as falsy, see
`strTruthy`. -/
structure Session where
  access_token : Option String
  refresh_token : Option String
  expires_in : Option Nat
deriving Repr, DecidableEq

/-- The `user` object inside a Supabase auth response: only its `id`
(the provider account id, a UUID rendered as a string) is read by the
code under verification. -/
structure AuthUser where
  id : String
deriving Repr, DecidableEq

/-- A Supabase `AuthResponse`: `user` and `session` attributes, each
possibly `None`. -/
structure AuthResponse where
  user : Option AuthUser
  session : Option Session
deriving Repr, DecidableEq

/-- A Supabase `UserResponse` as returned by `auth.get_user`: the code
checks both `not user_response` and `not user_response.user`, so the
response itself and its `user` attribute may each be `None`. -/
structure UserResponse where
  user : Option AuthUser
deriving Repr, DecidableEq

/-- Python truthiness of an optional string attribute: `None` and the
empty string are falsy, any other string is truthy. -/
def strTruthy : Option String → Bool
  | none => false
  | some s => !s.isEmpty

/-- Behaviour of the Supabase client for the single request being
modelled: each field is the outcome of the corresponding
`supabase.auth.*` method, either a value or a raised exception.  Each
endpoint calls each method at most once, so one outcome per method
suffices. -/
structure SupabaseAuth where
  sign_up : Except PyExn AuthResponse
  sign_in_with_password : Except PyExn AuthResponse
  refresh_session : Except PyExn AuthResponse
  reset_password_email : Except PyExn Unit
  verify_otp : Except PyExn AuthResponse
  set_session : Except PyExn Unit
  update_user : Except PyExn AuthResponse
  get_user : Except PyExn (Option UserResponse)
  sign_out : Except PyExn Unit
deriving Repr

/-- Record of calls made to the provider during one request, used to
state "no provider call is made" and "revocation is global in scope". -/
inductive ProviderCall where
  | sign_up (email password : String)
  | sign_in_with_password (email password : String)
  | refresh_session (tok : String)
  | reset_password_email (email : String)
  | verify_otp (token_hash ty : String)
  | set_session (access refresh : Option String)
  | update_user_password (password : String)
  | get_user (tok : String)
  | sign_out (scope : String)
deriving Repr, DecidableEq

/-- A FastAPI `HTTPException`: status code and detail string (headers are
immaterial to the claims). -/
structure HTTPException where
  status_code : Nat
  detail : String
deriving Repr, DecidableEq

/-- `str(e)` of a Starlette/FastAPI `HTTPException` is
`f"{self.status_code}: {self.detail}"`. -/
def HTTPException.str (e : HTTPException) : String :=
  toString e.status_code ++ ": " ++ e.detail

/-- Outcome of one endpoint invocation: a success response with the HTTP
status declared on the route decorator and a response body, or a raised
`HTTPException`. -/
inductive EndpointResult (α : Type) where
  | success (status : Nat) (body : α)
  | error (e : HTTPException)
deriving Repr, DecidableEq

/-- Whether an endpoint invocation produced a success response rather
than a raised `HTTPException`. -/
def EndpointResult.isSuccess {α : Type} : EndpointResult α → Bool
  | .success _ _ => true
  | .error _ => false

/-- Row of the `users` table restricted to the columns the identity core
reads and writes: `id` (provider account id) and `username`. -/
structure UserRow where
  id : String
  username : String
deriving Repr, DecidableEq

/-- SQLAlchemy session state over the `users` table: `committed` rows are
durable; `pending` rows have been `add`ed but not committed.  `commit`
makes pending rows durable; `rollback` discards pending rows and leaves
committed rows untouched. -/
structure DB where
  committed : List UserRow
  pending : List UserRow
deriving Repr, DecidableEq

def DB.add (db : DB) (r : UserRow) : DB :=
  { db with pending := db.pending ++ [r] }

def DB.commit (db : DB) : DB :=
  { committed := db.committed ++ db.pending, pending := [] }

def DB.rollback (db : DB) : DB :=
  { db with pending := [] }

/-- `db.query(User).filter(User.username == u).first()` (the session
auto-flushes, so pending rows are visible to the query). -/
def DB.queryUsername (db : DB) (u : String) : Option UserRow :=
  (db.committed ++ db.pending).find? (fun r => r.username = u)

/-- `db.query(User).filter(User.id == i).first()`. -/
def DB.queryId (db : DB) (i : String) : Option UserRow :=
  (db.committed ++ db.pending).find? (fun r => r.id = i)

/-- Hex digit test used by the UUID model. -/
def isHexDigit (c : Char) : Bool :=
  c.isDigit || (c ≥ 'a' && c ≤ 'f') || (c ≥ 'A' && c ≤ 'F')

/-- Canonical hyphenated UUID form: 36 characters, hyphens at positions
8, 13, 18 and 23, hex digits elsewhere. -/
def isCanonicalUUID (s : String) : Bool :=
  let cs := s.toList
  cs.length = 36 &&
  (List.range 36).all (fun i =>
    let c := cs.getD i ' '
    if i = 8 || i = 13 || i = 18 || i = 23 then c = '-' else isHexDigit c)

/-- `str(e)` of the `ValueError` raised by `uuid.UUID` on malformed
input. -/
def uuidValueErrorMsg : String := "badly formed hexadecimal UUID string"

/-- Lower-cases the upper-case hex digits a canonical UUID string can
contain (kept character-by-character so concrete instances evaluate). -/
def lowerHexChar (c : Char) : Char :=
  if c = 'A' then 'a' else if c = 'B' then 'b' else if c = 'C' then 'c'
  else if c = 'D' then 'd' else if c = 'E' then 'e' else if c = 'F' then 'f'
  else c

/-- Model of the Python `uuid.UUID(s)` constructor, restricted to the
canonical hyphenated form (the other input shapes `uuid.UUID` accepts are
immaterial to the claims: only success versus `ValueError` is observed).
Returns the id normalised to lower case, as `str(UUID(s))` would, so that
two spellings of one UUID value compare equal. -/
def pyUUID (s : String) : Option String :=
  if isCanonicalUUID s then some (String.mk (s.toList.map lowerHexChar))
  else none

/-- Request body of `POST /auth/signup` (`SignupRequest`). -/
structure SignupRequest where
  email : String
  password : String
  username : String
deriving Repr, DecidableEq

/-- Response body shape shared by signup, login and refresh: the dict
`{access_token, refresh_token, token_type, expires_in}` built from the
session, fields kept optional exactly as the session attributes are. -/
structure TokenOut where
  access_token : Option String
  refresh_token : Option String
  token_type : String
  expires_in : Option Nat
deriving Repr, DecidableEq

/-- `POST /auth/signup` (`signup` in `auth.py`).  Returns the endpoint
outcome, the final database session state, and the list of provider
calls made.  The route decorator declares `status_code=201`.

Control flow from the source: the username-uniqueness query and its 400
happen before the `try` block; inside the `try`, `sign_up` may raise;
a falsy `user` raises 400; `UUID(...)` may raise `ValueError`; the
profile row is added and committed; a falsy session or access token then
raises 500.  `except HTTPException: raise` re-raises `HTTPException`s
unchanged (in particular without rolling back the already-committed row);
`except Exception` rolls back and raises 400 with the interpolated
`str(e)`. -/
def signup (req : SignupRequest) (db : DB) (sb : SupabaseAuth) :
    EndpointResult TokenOut × DB × List ProviderCall :=
  match db.queryUsername req.username with
  | some _ => (.error ⟨400, "Username already taken"⟩, db, [])
  | none =>
    let trace := [ProviderCall.sign_up req.email req.password]
    match sb.sign_up with
    | .error (.exn msg) =>
        (.error ⟨400, "Signup failed: " ++ msg⟩, db.rollback, trace)
    | .ok ar =>
      match ar.user with
      | none => (.error ⟨400, "Failed to create user account"⟩, db, trace)
      | some u =>
        match pyUUID u.id with
        | none =>
            (.error ⟨400, "Signup failed: " ++ uuidValueErrorMsg⟩,
             db.rollback, trace)
        | some uid =>
          let db1 := (db.add ⟨uid, req.username⟩).commit
          match ar.session with
          | none => (.error ⟨500, "Failed to generate access token"⟩, db1, trace)
          | some s =>
            if strTruthy s.access_token then
              (.success 201
                ⟨s.access_token, s.refresh_token, "bearer", s.expires_in⟩,
               db1, trace)
            else
              (.error ⟨500, "Failed to generate access token"⟩, db1, trace)

/-- Request body of `POST /auth/login` (`LoginRequest`). -/
structure LoginRequest where
  email : String
  password : String
deriving Repr, DecidableEq

/-- `POST /auth/login` (`login` in `auth.py`).  Route status code 200.
Inside the `try`, `sign_in_with_password` may raise; a falsy session or
access token raises 401 "Invalid credentials"; `except HTTPException:
raise` passes that through, and `except Exception` raises 401 with the
interpolated `str(e)`. -/
def login (req : LoginRequest) (sb : SupabaseAuth) : EndpointResult TokenOut :=
  match sb.sign_in_with_password with
  | .error (.exn msg) => .error ⟨401, "Login failed: " ++ msg⟩
  | .ok ar =>
    match ar.session with
    | none => .error ⟨401, "Invalid credentials"⟩
    | some s =>
      if strTruthy s.access_token then
        .success 200 ⟨s.access_token, s.refresh_token, "bearer", s.expires_in⟩
      else
        .error ⟨401, "Invalid credentials"⟩

/-- Request body of `POST /auth/refresh` (`TokenRefresh`). -/
structure TokenRefresh where
  refresh_token : String
deriving Repr, DecidableEq

/-- `POST /auth/refresh` (`refresh_token` in `auth.py`).  Route status
code 200.  Same shape as `login`: a falsy session or access token raises
401 "Invalid or expired refresh token", any provider exception becomes
401 with the interpolated `str(e)`. -/
def refresh_token (token_data : TokenRefresh) (sb : SupabaseAuth) :
    EndpointResult TokenOut :=
  match sb.refresh_session with
  | .error (.exn msg) => .error ⟨401, "Token refresh failed: " ++ msg⟩
  | .ok ar =>
    match ar.session with
    | none => .error ⟨401, "Invalid or expired refresh token"⟩
    | some s =>
      if strTruthy s.access_token then
        .success 200 ⟨s.access_token, s.refresh_token, "bearer", s.expires_in⟩
      else
        .error ⟨401, "Invalid or expired refresh token"⟩

/-- Response body `{message}` returned by the password-reset-request and
logout endpoints. -/
structure MessageOut where
  message : String
deriving Repr, DecidableEq

/-- `POST /auth/password-reset/request` (`request_password_reset` in
`auth.py`).  Route status code 200.  Both the normal path and the bare
`except Exception` path return the identical `{message}` body. -/
def request_password_reset (email : String) (sb : SupabaseAuth) :
    EndpointResult MessageOut :=
  match sb.reset_password_email with
  | .ok _ =>
      .success 200 ⟨"If the email exists, a password reset link has been sent"⟩
  | .error _ =>
      .success 200 ⟨"If the email exists, a password reset link has been sent"⟩

/-- Request body of `POST /auth/password-reset/confirm`
(`PasswordResetConfirm`). -/
structure PasswordResetConfirm where
  token : String
  password : String
deriving Repr, DecidableEq

/-- Response body of a successful password-reset confirmation:
`{message, access_token, token_type}`. -/
structure ResetConfirmOut where
  message : String
  access_token : Option String
  token_type : String
deriving Repr, DecidableEq

/-- Abbreviated `str(e)` of the `AttributeError` Python raises when an
attribute is read off `None` (Python quotes the names; the exact
rendering is immaterial to the claims, only that the generic handler
interpolates it). -/
def noneAttributeErrorMsg (attr : String) : String :=
  "NoneType object has no attribute " ++ attr

/-- `POST /auth/password-reset/confirm` (`confirm_password_reset` in
`auth.py`).  Route status code 200.  Inside the `try`: `verify_otp` may
raise; a falsy `user` raises 400 "Invalid or expired reset token";
`set_session` reads `auth_response.session.access_token`, which raises
`AttributeError` when the session is `None`; `set_session` and
`update_user` may raise; a falsy updated `user` raises 400 "Failed to
update password"; success returns the recovery session's access token.
`except HTTPException: raise` passes the 400s through and
`except Exception` maps every other exception to 400 with the
interpolated `str(e)`. -/
def confirm_password_reset (reset_data : PasswordResetConfirm)
    (sb : SupabaseAuth) : EndpointResult ResetConfirmOut :=
  match sb.verify_otp with
  | .error (.exn msg) => .error ⟨400, "Password reset failed: " ++ msg⟩
  | .ok ar =>
    match ar.user with
    | none => .error ⟨400, "Invalid or expired reset token"⟩
    | some _ =>
      match ar.session with
      | none =>
          .error ⟨400, "Password reset failed: "
            ++ noneAttributeErrorMsg "access_token"⟩
      | some s =>
        match sb.set_session with
        | .error (.exn msg) => .error ⟨400, "Password reset failed: " ++ msg⟩
        | .ok _ =>
          match sb.update_user with
          | .error (.exn msg) => .error ⟨400, "Password reset failed: " ++ msg⟩
          | .ok ur =>
            match ur.user with
            | none => .error ⟨400, "Failed to update password"⟩
            | some _ =>
                .success 200
                  ⟨"Password has been reset successfully", s.access_token,
                   "bearer"⟩

/-- `POST /auth/logout` (`logout` in `auth.py`).  Route status code 200.
Returns the outcome and the provider calls made.  Inside the `try`:
`get_user` may raise; a falsy response or falsy `user` raises 401
"Invalid token" (before any revocation call); then `sign_out` is called
with scope "global" and may raise; success returns `{message}`.
`except HTTPException: raise` passes the 401 through and
`except Exception` maps any other exception to 401 with the interpolated
`str(e)`. -/
def logout (token : String) (sb : SupabaseAuth) :
    EndpointResult MessageOut × List ProviderCall :=
  let t0 := [ProviderCall.get_user token]
  match sb.get_user with
  | .error (.exn msg) => (.error ⟨401, "Logout failed: " ++ msg⟩, t0)
  | .ok ur =>
    match ur with
    | none => (.error ⟨401, "Invalid token"⟩, t0)
    | some r =>
      match r.user with
      | none => (.error ⟨401, "Invalid token"⟩, t0)
      | some _ =>
        let t1 := t0 ++ [ProviderCall.sign_out "global"]
        match sb.sign_out with
        | .ok _ => (.success 200 ⟨"Successfully logged out"⟩, t1)
        | .error (.exn msg) => (.error ⟨401, "Logout failed: " ++ msg⟩, t1)

/-- Exceptions that can escape the `try` block of `get_current_user` in
`deps.py`: a raised `HTTPException`, a `ValueError` (from `uuid.UUID`),
or any other provider exception.  In Python, `HTTPException` is a
subclass of `Exception`, so which handler receives it is decided purely
by the `except` clause order. -/
inductive TryExn where
  | httpExn (e : HTTPException)
  | valueError (msg : String)
  | pyExn (msg : String)
deriving Repr, DecidableEq

/-- The `credentials_exception` constant of `deps.py` (its
`WWW-Authenticate` header is immaterial to the claims). -/
def credentials_exception : HTTPException :=
  ⟨401, "Could not validate credentials"⟩

/-- The `try` block body of `get_current_user` in `deps.py`: validate
the bearer token with the provider, reject a falsy response or `user`
with `credentials_exception`, parse the provider account id as a UUID,
look the id up in the local `users` table, raise 404 when no row
matches, and otherwise return the row. -/
def get_current_user_body (token : String) (db : DB) (sb : SupabaseAuth) :
    Except TryExn UserRow :=
  match sb.get_user with
  | .error (.exn msg) => .error (.pyExn msg)
  | .ok ur =>
    match ur with
    | none => .error (.httpExn credentials_exception)
    | some r =>
      match r.user with
      | none => .error (.httpExn credentials_exception)
      | some su =>
        match pyUUID su.id with
        | none => .error (.valueError uuidValueErrorMsg)
        | some uid =>
          match db.queryId uid with
          | none =>
              .error (.httpExn
                ⟨404, "User profile not found. Please create a profile first."⟩)
          | some u => .ok u

/-- `get_current_user` in `deps.py`: the `try` body followed by its
handlers, in source order — `except ValueError` raises
`credentials_exception`, and the bare `except Exception as e` (which in
Python also catches `HTTPException`s raised inside the `try`, there
being no `except HTTPException: raise` clause in this function) raises
401 with `str(e)` interpolated into the detail. -/
def get_current_user (token : String) (db : DB) (sb : SupabaseAuth) :
    Except HTTPException UserRow :=
  match get_current_user_body token db sb with
  | .ok u => .ok u
  | .error (.valueError _) => .error credentials_exception
  | .error (.httpExn e) =>
      .error ⟨401, "Invalid authentication credentials: " ++ e.str⟩
  | .error (.pyExn msg) =>
      .error ⟨401, "Invalid authentication credentials: " ++ msg⟩

/-- The session (or its `access_token`) is falsy, i.e. the signup and
login checks `not auth_response.session or not
auth_response.session.access_token` fire. -/
def sessionAccessFalsy : Option Session → Bool
  | none => true
  | some s => !(strTruthy s.access_token)

/-- An empty local profile store session. -/
def dbEmpty : DB := ⟨[], []⟩

/-- A canonical provider account id used in concrete scenarios. -/
def uuid0 : String := "00000000-0000-0000-0000-000000000000"

/-- Baseline provider behaviour: every method returns without raising,
with empty auth responses; concrete scenarios override single fields. -/
def sbBase : SupabaseAuth where
  sign_up := .ok ⟨none, none⟩
  sign_in_with_password := .ok ⟨none, none⟩
  refresh_session := .ok ⟨none, none⟩
  reset_password_email := .ok ()
  verify_otp := .ok ⟨none, none⟩
  set_session := .ok ()
  update_user := .ok ⟨none, none⟩
  get_user := .ok none
  sign_out := .ok ()

/-- A fully populated session issued by the provider. -/
def sessionFull : Session := ⟨some "acc-tok", some "ref-tok", some 3600⟩

/-- Provider behaviour where signup creates the account but returns no
session (email confirmation required). -/
def sbSignupNoSession : SupabaseAuth :=
  { sbBase with sign_up := .ok ⟨some ⟨uuid0⟩, none⟩ }

/-- Provider behaviour where signup creates the account and issues a
full session. -/
def sbSignupOk : SupabaseAuth :=
  { sbBase with sign_up := .ok ⟨some ⟨uuid0⟩, some sessionFull⟩ }

/-- Provider behaviour where credential verification returns no session
(a falsy session on an otherwise normal response). -/
def sbLoginNoSession : SupabaseAuth :=
  { sbBase with sign_in_with_password := .ok ⟨none, none⟩ }

/-- Provider behaviour where credential verification raises (provider
unreachable). -/
def sbLoginUnreachable : SupabaseAuth :=
  { sbBase with sign_in_with_password := .error (.exn "connection refused") }

/-- Provider behaviour where the bearer token resolves to account
`uuid0`. -/
def sbTokenValid : SupabaseAuth :=
  { sbBase with get_user := .ok (some ⟨some ⟨uuid0⟩⟩) }

/-- Provider behaviour where token rotation issues a full session. -/
def sbRefreshOk : SupabaseAuth :=
  { sbBase with refresh_session := .ok ⟨none, some sessionFull⟩ }

/-- Provider behaviour where token rotation raises. -/
def sbRefreshFail : SupabaseAuth :=
  { sbBase with refresh_session := .error (.exn "token already used") }

/-- Provider behaviour where the whole password-reset confirmation flow
succeeds: the recovery token verifies to a user with a session, and the
password update returns a user. -/
def sbResetOk : SupabaseAuth :=
  { sbBase with
    verify_otp := .ok ⟨some ⟨uuid0⟩, some sessionFull⟩
    update_user := .ok ⟨some ⟨uuid0⟩, none⟩ }

-- ------------------------------------------------------------------
-- Theorems
-- ------------------------------------------------------------------

/-- C4: a signup whose username already exists in the local profile
store yields the 400 "Username already taken" error with the store
unchanged and an empty provider-call trace (no provider call is made);
and when the username check passes, the one provider signup call is
made, i.e. the provider is consulted only after the check. -/
theorem C4_username_taken_before_provider (req : SignupRequest) (db : DB)
    (sb : SupabaseAuth) :
    (∀ r, db.queryUsername req.username = some r →
        signup req db sb = (.error ⟨400, "Username already taken"⟩, db, [])) ∧
    (db.queryUsername req.username = none →
        (signup req db sb).2.2 = [ProviderCall.sign_up req.email req.password]) := by
  constructor
  · intro r htaken
    simp [signup, htaken]
  · intro hfree
    simp only [signup, hfree]
    rcases sb.sign_up with ⟨msg⟩ | ar
    · rfl
    · rcases ar with ⟨u, sess⟩
      rcases u with _ | u
      · rfl
      · rcases h : pyUUID u.id with _ | uid
        · simp [h]
        · rcases sess with _ | s
          · simp [h]
          · by_cases ht : strTruthy s.access_token <;> simp [h, ht]

/-- C4 witness: with username "alice" already taken, the concrete signup
returns 400 and makes no provider call; with the store empty, the
provider signup call is made. -/
theorem C4_username_taken_before_provider_witness :
    signup ⟨"a@x.com", "Pw1!", "alice"⟩ ⟨[⟨uuid0, "alice"⟩], []⟩ sbSignupOk
      = (.error ⟨400, "Username already taken"⟩, ⟨[⟨uuid0, "alice"⟩], []⟩, []) ∧
    (signup ⟨"a@x.com", "Pw1!", "alice"⟩ dbEmpty sbSignupOk).2.2
      = [ProviderCall.sign_up "a@x.com" "Pw1!"] :=
  ⟨(C4_username_taken_before_provider ⟨"a@x.com", "Pw1!", "alice"⟩
      ⟨[⟨uuid0, "alice"⟩], []⟩ sbSignupOk).1 ⟨uuid0, "alice"⟩ (by decide),
   (C4_username_taken_before_provider ⟨"a@x.com", "Pw1!", "alice"⟩
      dbEmpty sbSignupOk).2 (by decide)⟩

/-- C5: a signup where the provider creates an account and returns a
session holding access and refresh tokens responds 201 with both tokens,
and the resulting store holds a committed row whose `id` is the provider
account id and whose `username` is the requested username. -/
theorem C5_signup_success_links_profile (req : SignupRequest) (db : DB)
    (sb : SupabaseAuth) (u : AuthUser) (s : Session) (uid atk rtk : String)
    (hfree : db.queryUsername req.username = none)
    (hsu : sb.sign_up = .ok ⟨some u, some s⟩)
    (hid : pyUUID u.id = some uid)
    (hat : s.access_token = some atk)
    (htr : strTruthy s.access_token = true)
    (hrt : s.refresh_token = some rtk) :
    (signup req db sb).1
      = .success 201 ⟨some atk, some rtk, "bearer", s.expires_in⟩ ∧
    UserRow.mk uid req.username ∈ (signup req db sb).2.1.committed := by
  rw [hat] at htr
  constructor
  · simp [signup, hfree, hsu, hid, htr, hat, hrt]
  · simp [signup, hfree, hsu, hid, htr, hat, DB.add, DB.commit]

/-- C5 witness: the concrete signup of "alice" against a provider
issuing a full session returns 201 with both tokens and commits the
linked profile row. -/
theorem C5_signup_success_links_profile_witness :
    (signup ⟨"a@x.com", "Pw1!", "alice"⟩ dbEmpty sbSignupOk).1
      = .success 201 ⟨some "acc-tok", some "ref-tok", "bearer", some 3600⟩ ∧
    UserRow.mk uuid0 "alice" ∈
      (signup ⟨"a@x.com", "Pw1!", "alice"⟩ dbEmpty sbSignupOk).2.1.committed :=
  C5_signup_success_links_profile ⟨"a@x.com", "Pw1!", "alice"⟩ dbEmpty
    sbSignupOk ⟨uuid0⟩ sessionFull uuid0 "acc-tok" "ref-tok"
    (by decide) rfl (by decide) rfl (by decide) rfl

/-- C1 counterexample: at the concrete signup of "alice" where the
provider creates account `uuid0` but returns no session (email
confirmation required), the endpoint does not return a success response
at all — it raises the 500 "Failed to generate access token" error, so
no 201-with-confirmation-message success path exists. -/
theorem C1_counterexample_no_session_signup_is_error :
    (signup ⟨"a@x.com", "Pw1!", "alice"⟩ dbEmpty sbSignupNoSession).1
      = .error ⟨500, "Failed to generate access token"⟩ ∧
    (signup ⟨"a@x.com", "Pw1!", "alice"⟩ dbEmpty sbSignupNoSession).1.isSuccess
      = false := by
  constructor <;> decide

/-- C1 (amended): for every signup where the provider creates an account
(with a well-formed account id) but returns no session, the endpoint
raises a 500 Internal Server Error with detail "Failed to generate
access token" — not a 201 success with a confirmation message. -/
theorem C1_amended_no_session_signup_500 (req : SignupRequest) (db : DB)
    (sb : SupabaseAuth) (u : AuthUser) (uid : String)
    (hfree : db.queryUsername req.username = none)
    (hsu : sb.sign_up = .ok ⟨some u, none⟩)
    (hid : pyUUID u.id = some uid) :
    (signup req db sb).1 = .error ⟨500, "Failed to generate access token"⟩ := by
  simp [signup, hfree, hsu, hid]

/-- C1 amended-claim witness at the concrete confirmation-required
signup. -/
theorem C1_amended_no_session_signup_500_witness :
    (signup ⟨"a@x.com", "Pw1!", "alice"⟩ dbEmpty sbSignupNoSession).1
      = .error ⟨500, "Failed to generate access token"⟩ :=
  C1_amended_no_session_signup_500 ⟨"a@x.com", "Pw1!", "alice"⟩ dbEmpty
    sbSignupNoSession ⟨uuid0⟩ uuid0 (by decide) rfl (by decide)

/-- C10: when the provider creates an account but the returned session
is missing or lacks an access token, signup raises the 500 error, yet
the local profile row has already been committed: the row with the
provider account id and requested username is in the committed store
after the failing request (the `except HTTPException: raise` clause
re-raises without rolling anything back, and the commit already
happened). -/
theorem C10_signup_commits_row_before_token_failure (req : SignupRequest)
    (db : DB) (sb : SupabaseAuth) (u : AuthUser) (sess : Option Session)
    (uid : String)
    (hfree : db.queryUsername req.username = none)
    (hsu : sb.sign_up = .ok ⟨some u, sess⟩)
    (hsf : sessionAccessFalsy sess = true)
    (hid : pyUUID u.id = some uid) :
    (signup req db sb).1 = .error ⟨500, "Failed to generate access token"⟩ ∧
    UserRow.mk uid req.username ∈ (signup req db sb).2.1.committed := by
  rcases sess with _ | s
  · constructor
    · simp [signup, hfree, hsu, hid]
    · simp [signup, hfree, hsu, hid, DB.add, DB.commit]
  · simp only [sessionAccessFalsy, Bool.not_eq_true'] at hsf
    constructor
    · simp [signup, hfree, hsu, hid, hsf]
    · simp [signup, hfree, hsu, hid, hsf, DB.add, DB.commit]

/-- C10 witness: the concrete confirmation-required signup fails with
500 while the profile row for `uuid0`/"alice" is committed. -/
theorem C10_signup_commits_row_before_token_failure_witness :
    (signup ⟨"a@x.com", "Pw1!", "alice"⟩ dbEmpty sbSignupNoSession).1
      = .error ⟨500, "Failed to generate access token"⟩ ∧
    UserRow.mk uuid0 "alice" ∈
      (signup ⟨"a@x.com", "Pw1!", "alice"⟩ dbEmpty sbSignupNoSession).2.1.committed :=
  C10_signup_commits_row_before_token_failure ⟨"a@x.com", "Pw1!", "alice"⟩
    dbEmpty sbSignupNoSession ⟨uuid0⟩ none uuid0 (by decide) rfl (by decide)
    (by decide)

/-- C2 (code bug): with a bearer token the provider resolves to account
`uuid0` and an empty local profile store, the `try` body of
`get_current_user` does raise the 404 "User profile not found" — but
the function's bare `except Exception` clause (there is no
`except HTTPException: raise` in `deps.py`) catches that `HTTPException`
and re-raises it as a 401 whose detail merely interpolates the 404, so
the caller observes `Unauthorized`, not the distinct `ProfileNotFound`
outcome. -/
theorem C2_profile_not_found_swallowed_into_401 :
    get_current_user_body "tok" dbEmpty sbTokenValid
      = .error (.httpExn
          ⟨404, "User profile not found. Please create a profile first."⟩) ∧
    get_current_user "tok" dbEmpty sbTokenValid
      = .error ⟨401,
          "Invalid authentication credentials: 404: User profile not found. Please create a profile first."⟩ := by
  constructor <;> decide

/-- C3 counterexample: two failing login attempts — one where the
provider returns no session and one where the provider raises
"connection refused" — both map to 401, but their response details
differ ("Invalid credentials" versus "Login failed: connection
refused"), so the two failure responses are distinguishable to the
caller. -/
theorem C3_counterexample_login_failures_distinguishable :
    login ⟨"a@x.com", "wrong"⟩ sbLoginNoSession
      = .error ⟨401, "Invalid credentials"⟩ ∧
    login ⟨"a@x.com", "wrong"⟩ sbLoginUnreachable
      = .error ⟨401, "Login failed: connection refused"⟩ ∧
    login ⟨"a@x.com", "wrong"⟩ sbLoginNoSession
      ≠ login ⟨"a@x.com", "wrong"⟩ sbLoginUnreachable := by
  refine ⟨rfl, rfl, ?_⟩
  decide

/-- C3 (amended): every failing login attempt (wrong password, missing
session, missing access token, or provider exception) yields status 401
Unauthorized; the detail string, however, differs between the
missing-session branch and the exception branch (which interpolates the
provider error text), so the causes are only indistinguishable at the
status-code level. -/
theorem C3_amended_login_failures_all_401 (req : LoginRequest)
    (sb : SupabaseAuth) (e : HTTPException)
    (h : login req sb = .error e) : e.status_code = 401 := by
  unfold login at h
  rcases hsb : sb.sign_in_with_password with ⟨msg⟩ | ar <;> simp [hsb] at h
  · simp [← h]
  · rcases hs : ar.session with _ | s <;> simp [hs] at h
    · simp [← h]
    · by_cases ht : strTruthy s.access_token <;> simp [ht] at h
      simp [← h]

/-- C3 amended-claim witness at a concrete failing login. -/
theorem C3_amended_login_failures_all_401_witness :
    (HTTPException.mk 401 "Invalid credentials").status_code = 401 :=
  C3_amended_login_failures_all_401 ⟨"a@x.com", "wrong"⟩ sbLoginNoSession
    ⟨401, "Invalid credentials"⟩ (by decide)

/-- C6: the password-reset-request endpoint returns the same 200
response with the same message for every email and every provider
behaviour — in particular the success and exception branches are
byte-for-byte indistinguishable. -/
theorem C6_reset_request_indistinguishable (e1 e2 : String)
    (sb1 sb2 : SupabaseAuth) :
    request_password_reset e1 sb1 = request_password_reset e2 sb2 ∧
    request_password_reset e1 sb1 = .success 200
      ⟨"If the email exists, a password reset link has been sent"⟩ := by
  constructor <;>
    simp only [request_password_reset] <;>
    rcases sb1.reset_password_email with _ | _ <;>
    rcases sb2.reset_password_email with _ | _ <;>
    rfl

/-- C7: a refresh call where the provider rotation succeeds (session
with access and refresh tokens) responds 200 with the new access and
refresh tokens; a provider exception or a falsy session / access token
each yield a 401 Unauthorized. -/
theorem C7_refresh_rotation (td : TokenRefresh) (sb : SupabaseAuth) :
    (∀ ar s atk rtk, sb.refresh_session = .ok ar → ar.session = some s →
        s.access_token = some atk → strTruthy s.access_token = true →
        s.refresh_token = some rtk →
        refresh_token td sb
          = .success 200 ⟨some atk, some rtk, "bearer", s.expires_in⟩) ∧
    (∀ msg, sb.refresh_session = .error (.exn msg) →
        refresh_token td sb = .error ⟨401, "Token refresh failed: " ++ msg⟩) ∧
    (∀ ar, sb.refresh_session = .ok ar → sessionAccessFalsy ar.session = true →
        refresh_token td sb
          = .error ⟨401, "Invalid or expired refresh token"⟩) := by
  refine ⟨?_, ?_, ?_⟩
  · intro ar s atk rtk hr hs hat htr hrt
    rw [hat] at htr
    simp [refresh_token, hr, hs, htr, hat, hrt]
  · intro msg hr
    simp [refresh_token, hr]
  · intro ar hr hsf
    rcases hs : ar.session with _ | s
    · simp [refresh_token, hr, hs]
    · rw [hs] at hsf
      simp only [sessionAccessFalsy, Bool.not_eq_true'] at hsf
      simp [refresh_token, hr, hs, hsf]

/-- C7 witness: a concrete successful rotation returns both new tokens,
and a concrete provider failure returns 401. -/
theorem C7_refresh_rotation_witness :
    refresh_token ⟨"old-ref"⟩ sbRefreshOk
      = .success 200 ⟨some "acc-tok", some "ref-tok", "bearer", some 3600⟩ ∧
    refresh_token ⟨"old-ref"⟩ sbRefreshFail
      = .error ⟨401, "Token refresh failed: token already used"⟩ :=
  ⟨(C7_refresh_rotation ⟨"old-ref"⟩ sbRefreshOk).1 ⟨none, some sessionFull⟩
      sessionFull "acc-tok" "ref-tok" rfl rfl rfl (by decide) rfl,
   (C7_refresh_rotation ⟨"old-ref"⟩ sbRefreshFail).2.1 "token already used" rfl⟩

/-- C8: in password-reset confirmation, every failure — a raised
provider exception in either step, reset-token verification returning
no user, or the password update returning no user — yields a 400
response, and the fully successful flow returns 200 with the message
and the recovery session's access token. -/
theorem C8_reset_confirm_failures_400_success_token
    (rd : PasswordResetConfirm) (sb : SupabaseAuth) :
    (∀ e, confirm_password_reset rd sb = .error e → e.status_code = 400) ∧
    (∀ msg, sb.verify_otp = .error (.exn msg) →
        confirm_password_reset rd sb
          = .error ⟨400, "Password reset failed: " ++ msg⟩) ∧
    (∀ ar, sb.verify_otp = .ok ar → ar.user = none →
        confirm_password_reset rd sb
          = .error ⟨400, "Invalid or expired reset token"⟩) ∧
    (∀ ar u1 s ur, sb.verify_otp = .ok ar → ar.user = some u1 →
        ar.session = some s → sb.set_session = .ok () →
        sb.update_user = .ok ur → ur.user = none →
        confirm_password_reset rd sb
          = .error ⟨400, "Failed to update password"⟩) ∧
    (∀ ar u1 s ur u2 atk, sb.verify_otp = .ok ar → ar.user = some u1 →
        ar.session = some s → sb.set_session = .ok () →
        sb.update_user = .ok ur → ur.user = some u2 →
        s.access_token = some atk →
        confirm_password_reset rd sb
          = .success 200
              ⟨"Password has been reset successfully", some atk, "bearer"⟩) := by
  refine ⟨?_, ?_, ?_, ?_, ?_⟩
  · intro e h
    unfold confirm_password_reset at h
    rcases hv : sb.verify_otp with ⟨msg⟩ | ar <;> simp [hv] at h
    · simp [← h]
    · rcases hu : ar.user with _ | u1 <;> simp [hu] at h
      · simp [← h]
      · rcases hs : ar.session with _ | s <;> simp [hs] at h
        · simp [← h]
        · rcases hss : sb.set_session with ⟨msg⟩ | _ <;> simp [hss] at h
          · simp [← h]
          · rcases hup : sb.update_user with ⟨msg⟩ | ur <;> simp [hup] at h
            · simp [← h]
            · rcases hu2 : ur.user with _ | u2 <;> simp [hu2] at h
              simp [← h]
  · intro msg hv
    simp [confirm_password_reset, hv]
  · intro ar hv hu
    simp [confirm_password_reset, hv, hu]
  · intro ar u1 s ur hv hu hs hss hup hu2
    simp [confirm_password_reset, hv, hu, hs, hss, hup, hu2]
  · intro ar u1 s ur u2 atk hv hu hs hss hup hu2 hat
    simp [confirm_password_reset, hv, hu, hs, hss, hup, hu2, hat]

/-- C8 witness: the concrete fully successful confirmation returns 200
with the access token, and a concrete verification returning no user
yields the 400 "Invalid or expired reset token". -/
theorem C8_reset_confirm_witness :
    confirm_password_reset ⟨"reset-tok", "NewPw1!"⟩ sbResetOk
      = .success 200
          ⟨"Password has been reset successfully", some "acc-tok", "bearer"⟩ ∧
    confirm_password_reset ⟨"reset-tok", "NewPw1!"⟩ sbBase
      = .error ⟨400, "Invalid or expired reset token"⟩ :=
  ⟨(C8_reset_confirm_failures_400_success_token ⟨"reset-tok", "NewPw1!"⟩
      sbResetOk).2.2.2.2 ⟨some ⟨uuid0⟩, some sessionFull⟩ ⟨uuid0⟩ sessionFull
      ⟨some ⟨uuid0⟩, none⟩ ⟨uuid0⟩ "acc-tok" rfl rfl rfl rfl rfl rfl rfl,
   (C8_reset_confirm_failures_400_success_token ⟨"reset-tok", "NewPw1!"⟩
      sbBase).2.2.1 ⟨none, none⟩ rfl rfl⟩

/-- C9: logout first resolves the access token; a provider exception or
a falsy user response yields 401 with no revocation call in the trace
(fails closed before any revocation); with a valid token and a
completing revocation, the one revocation requested has scope "global"
and the endpoint returns the 200 success message. -/
theorem C9_logout_global_revocation (token : String) (sb : SupabaseAuth) :
    (∀ msg, sb.get_user = .error (.exn msg) →
        (logout token sb).1 = .error ⟨401, "Logout failed: " ++ msg⟩ ∧
        (logout token sb).2 = [ProviderCall.get_user token]) ∧
    ((sb.get_user = .ok none ∨
        (∃ r, sb.get_user = .ok (some r) ∧ r.user = none)) →
        (logout token sb).1 = .error ⟨401, "Invalid token"⟩ ∧
        (logout token sb).2 = [ProviderCall.get_user token]) ∧
    (∀ r u, sb.get_user = .ok (some r) → r.user = some u →
        sb.sign_out = .ok () →
        (logout token sb).1 = .success 200 ⟨"Successfully logged out"⟩ ∧
        (logout token sb).2
          = [ProviderCall.get_user token, ProviderCall.sign_out "global"]) := by
  refine ⟨?_, ?_, ?_⟩
  · intro msg hg
    constructor <;> simp [logout, hg]
  · intro hg
    rcases hg with hg | ⟨r, hg, hu⟩
    · constructor <;> simp [logout, hg]
    · constructor <;> simp [logout, hg, hu]
  · intro r u hg hu hs
    constructor <;> simp [logout, hg, hu, hs]

/-- C9 witness: a concrete invalid token yields 401 with no revocation
call, and a concrete valid token yields a global-scope revocation and
the success message. -/
theorem C9_logout_global_revocation_witness :
    ((logout "tok" sbBase).1 = .error ⟨401, "Invalid token"⟩ ∧
     (logout "tok" sbBase).2 = [ProviderCall.get_user "tok"]) ∧
    ((logout "tok" sbTokenValid).1 = .success 200 ⟨"Successfully logged out"⟩ ∧
     (logout "tok" sbTokenValid).2
       = [ProviderCall.get_user "tok", ProviderCall.sign_out "global"]) :=
  ⟨(C9_logout_global_revocation "tok" sbBase).2.1 (Or.inl rfl),
   (C9_logout_global_revocation "tok" sbTokenValid).2.2 ⟨some ⟨uuid0⟩⟩ ⟨uuid0⟩
     rfl rfl rfl⟩

end SoundPuff
